import Mathlib

/-
Shallow embedding of the Autonomous Newsroom orchestration core:
  src/core/orchestrator.py   (CycleStatus, CycleResult, detect_clickbait,
                              orchestrate_newsroom_cycle)
  src/agents/research_agent.py, src/agents/writer_agent.py,
  src/agents/editor_agent.py (the three agent steps)
  src/schemas.py             (Pydantic field constraints)

The generation backend (llm_client.get_completion) is nondeterministic, so
each agent call is parametrised by an oracle input: the structured data
parsed from the model response, or the parse/transport failure, as an
`Except String _` value.  Python exceptions raised inside a step
(json.loads failure, Pydantic ValidationError) are `Except.error` values;
the orchestrator's top-level `except` corresponds to propagating those
errors into the ERROR result.  Shape-level failures (missing JSON keys,
wrong JSON types) are folded into the oracle's error case; the Pydantic
`Field` bounds that can fail on well-typed data (string length bounds,
version >= 1, score ranges) are checked explicitly.  Timestamp and
bookkeeping fields (`created_at`, `updated_at`, `reviewed_at`,
`started_at`, `finished_at`, `status`, `based_on_research`) are not read
by any verified property and are omitted.
-/

/-- schemas.ReviewDecision (approve / revise / reject). -/
inductive ReviewDecision where
  | APPROVE
  | REVISE
  | REJECT
deriving DecidableEq, Repr

/-- orchestrator.CycleStatus (success / max_iterations / rejected / error). -/
inductive CycleStatus where
  | SUCCESS
  | MAX_ITERATIONS
  | REJECTED
  | ERROR
deriving DecidableEq, Repr

/-- schemas.SourceInfo; `relevance_score` is constrained to [0,1]. -/
structure SourceInfo where
  title : String
  url : Option String
  summary : String
  relevance_score : ℚ
deriving DecidableEq, Repr

/-- schemas.ResearchNotes (validated output of the research step). -/
structure ResearchNotes where
  topic : String
  sources : List SourceInfo
  key_facts : List String
  suggested_angle : String
deriving DecidableEq, Repr

/-- schemas.ArticleDraft (validated output of the writer step). -/
structure ArticleDraft where
  title : String
  lead : String
  body : String
  tags : List String
  word_count : Nat
  version : Nat
deriving DecidableEq, Repr

/-- schemas.ReviewFeedback (validated output of the editor step).
`iteration_attr` models the dynamically attached `_iteration` attribute
that writer_agent reads via `getattr(feedback, "_iteration", 1)`; no code
in the repository ever sets that attribute, so every feedback value the
program constructs carries `none` here. -/
structure ReviewFeedback where
  decision : ReviewDecision
  overall_score : ℚ
  strengths : List String
  weaknesses : List String
  specific_suggestions : List String
  fact_check_notes : Option String
  iteration_attr : Option Nat
deriving DecidableEq, Repr

/-- Parsed JSON of a research-step model response, before validation. -/
structure ResearchData where
  topic : String
  sources : List SourceInfo
  key_facts : List String
  suggested_angle : String
deriving DecidableEq, Repr

/-- Parsed JSON of a writer-step model response, before validation.
`version?` is `some v` when the JSON carried an explicit "version" key
(Pydantic defaults it to 1 when absent). -/
structure DraftData where
  title : String
  lead : String
  body : String
  tags : List String
  word_count : Nat
  version? : Option Nat
deriving DecidableEq, Repr

/-- Parsed JSON of an editor-step model response, before validation;
`decision` is the raw decision string. -/
structure ReviewData where
  decision : String
  overall_score : ℚ
  strengths : List String
  weaknesses : List String
  specific_suggestions : List String
  fact_check_notes : Option String
deriving DecidableEq, Repr

/-- Python str.lower, modelled character-wise over the ASCII range (the
decision strings and trigger words the code compares are ASCII; Unicode
case folding beyond ASCII only perturbs the heuristic score's exact value,
never any property verified here). -/
def pyLower (s : String) : String := ⟨s.data.map Char.toLower⟩

/-- research_agent (src/agents/research_agent.py): prompt construction and
the generation call are abstracted into `resp`; the Pydantic bound
`relevance_score ∈ [0,1]` on each source is checked explicitly. -/
def research_agent (topic : String) (resp : Except String ResearchData) :
    Except String ResearchNotes :=
  match resp with
  | .error e => .error e
  | .ok data =>
    if data.sources.all fun s =>
        decide (0 ≤ s.relevance_score) && decide (s.relevance_score ≤ 1) then
      .ok { topic := data.topic, sources := data.sources,
            key_facts := data.key_facts,
            suggested_angle := data.suggested_angle }
    else
      .error "ValidationError: relevance_score"

/-- writer_agent (src/agents/writer_agent.py).  Mirrors steps 6-8 of the
source: a json.loads failure propagates; when feedback is present the
draft version is `getattr(feedback, "_iteration", 1) + 1`, otherwise the
parsed "version" value (Pydantic default 1 when the key is absent); then
the Pydantic length/version bounds are checked.  The `research` argument
only feeds the prompt in the source, so it is unused here. -/
def writer_agent (research : ResearchNotes) (feedback : Option ReviewFeedback)
    (resp : Except String DraftData) : Except String ArticleDraft :=
  match resp with
  | .error e => .error e
  | .ok data =>
    let version : Nat :=
      match feedback with
      | some fb => fb.iteration_attr.getD 1 + 1
      | none => data.version?.getD 1
    if data.title.length < 5 ∨ 200 < data.title.length then
      .error "ValidationError: title"
    else if data.lead.length < 20 ∨ 500 < data.lead.length then
      .error "ValidationError: lead"
    else if data.body.length < 100 then
      .error "ValidationError: body"
    else if version < 1 then
      .error "ValidationError: version"
    else
      .ok { title := data.title, lead := data.lead, body := data.body,
            tags := data.tags, word_count := data.word_count,
            version := version }

/-- The editor's decision mapping, `decision_map.get(s.lower(), REVISE)`
(src/agents/editor_agent.py step 5): case-insensitive lookup with REVISE
as the default for every unrecognized string. -/
def decision_map_get (s : String) : ReviewDecision :=
  let key := pyLower s
  if key = "approve" then .APPROVE
  else if key = "revise" then .REVISE
  else if key = "reject" then .REJECT
  else .REVISE

/-- editor_agent (src/agents/editor_agent.py).  The draft and the clickbait
score only feed the prompt in the source, so they are unused here; the
decision string is mapped through `decision_map_get` and the Pydantic
bound `overall_score ∈ [0,10]` is checked. -/
def editor_agent (draft : ArticleDraft) (clickbait_score : ℚ)
    (resp : Except String ReviewData) : Except String ReviewFeedback :=
  match resp with
  | .error e => .error e
  | .ok data =>
    let decision := decision_map_get data.decision
    if data.overall_score < 0 ∨ 10 < data.overall_score then
      .error "ValidationError: overall_score"
    else
      .ok { decision := decision, overall_score := data.overall_score,
            strengths := data.strengths, weaknesses := data.weaknesses,
            specific_suggestions := data.specific_suggestions,
            fact_check_notes := data.fact_check_notes,
            iteration_attr := none }

/-- The trigger-phrase list of detect_clickbait (orchestrator.py). -/
def clickbait_words : List String :=
  ["szok", "nie uwierzysz", "tego nie wiedziałeś", "sekret",
   "zdradza", "musisz zobaczyć", "niewiarygodne", "hit",
   "sensacja", "pilne", "breaking", "exclusive"]

/-- detect_clickbait (orchestrator.py lines 71-96): trigger-phrase count,
plus 0.5 per "!", plus 0.25 per "?", plus 0.5 when the upper-case ratio
exceeds 0.3; the total is weighted by 0.2 and capped at 1.0. -/
def detect_clickbait (title : String) : ℚ :=
  let title_lower := pyLower title
  let score0 : ℚ :=
    (clickbait_words.countP fun w => decide (w.data <:+: title_lower.data) : Nat)
  let score1 : ℚ := score0 + (title.data.countP fun c => c = '!' : Nat) * (1/2)
  let score2 : ℚ := score1 + (title.data.countP fun c => c = '?' : Nat) * (1/4)
  let caps_ratio : ℚ :=
    (title.data.countP Char.isUpper : Nat) / (max title.length 1 : Nat)
  let score3 : ℚ := if caps_ratio > 3/10 then score2 + 1/2 else score2
  min (score3 * (1/5)) 1

/-- orchestrator.CycleResult (timestamps omitted, see the header note). -/
structure CycleResult where
  status : CycleStatus
  topic : String
  iterations : Nat
  final_draft : Option ArticleDraft := none
  final_review : Option ReviewFeedback := none
  research_notes : Option ResearchNotes := none
  error_message : Option String := none
deriving DecidableEq, Repr

/-- The "article" entry built by CycleResult.to_dict (orchestrator.py
lines 51-58): body truncated to its first 500 characters plus "..." when
longer than 500 characters, other fields passed through. -/
structure ArticleProjection where
  title : String
  lead : String
  body : String
  tags : List String
  word_count : Nat
deriving DecidableEq, Repr

/-- CycleResult.to_dict restricted to its "article" entry (the only part
of the projection any verified property mentions). -/
def CycleResult.to_dict_article (r : CycleResult) : Option ArticleProjection :=
  r.final_draft.map fun d =>
    { title := d.title, lead := d.lead,
      body := if 500 < d.body.length then d.body.take 500 ++ "..." else d.body,
      tags := d.tags, word_count := d.word_count }

/-- The nondeterministic environment of one cycle: the parsed model
response (or failure) of the single research call and of the writer and
editor calls of each iteration (indexed from 1). -/
structure Oracle where
  researchResp : Except String ResearchData
  writerResp : Nat → Except String DraftData
  editorResp : Nat → Except String ReviewData

/-- The iteration loop of orchestrate_newsroom_cycle (orchestrator.py
lines 155-272), over the list of remaining iteration indices (the source's
`range(1, max_iterations + 1)`); `rest = []` is the source's
`iteration == max_iterations`.  Error returns mirror the top-level
`except` block, which sets status ERROR and the failure's message on the
partially filled result. -/
def loopIters (notes : ResearchNotes) (o : Oracle) :
    List Nat → Option ReviewFeedback → CycleResult → CycleResult
  | [], _previous_feedback, result =>
    { result with status := CycleStatus.MAX_ITERATIONS }
  | iteration :: rest, previous_feedback, result =>
    let result := { result with iterations := iteration }
    match writer_agent notes previous_feedback (o.writerResp iteration) with
    | .error e => { result with status := CycleStatus.ERROR, error_message := some e }
    | .ok article_draft =>
      let result := { result with final_draft := some article_draft }
      let clickbait_score := detect_clickbait article_draft.title
      match editor_agent article_draft clickbait_score (o.editorResp iteration) with
      | .error e => { result with status := CycleStatus.ERROR, error_message := some e }
      | .ok review =>
        let result := { result with final_review := some review }
        match review.decision with
        | .APPROVE => { result with status := CycleStatus.SUCCESS }
        | .REJECT =>
          if rest = [] then { result with status := CycleStatus.REJECTED }
          else loopIters notes o rest (some review) result
        | .REVISE =>
          if rest = [] then loopIters notes o rest previous_feedback result
          else loopIters notes o rest (some review) result

/-- orchestrate_newsroom_cycle (orchestrator.py lines 99-281): run research
once, then the iteration loop over indices 1..max_iterations. -/
def orchestrate_newsroom_cycle (topic : String) (max_iterations : Nat)
    (o : Oracle) : CycleResult :=
  let result : CycleResult :=
    { status := CycleStatus.ERROR, topic := topic, iterations := 0 }
  match research_agent topic o.researchResp with
  | .error e => { result with error_message := some e }
  | .ok research_notes =>
    let result := { result with research_notes := some research_notes }
    loopIters research_notes o (List.range' 1 max_iterations) none result

/-- Specification-side trace: the `previous_feedback` value the loop holds
after `k` completed iterations (equivalently the review produced by
iteration `k`, for `k ≥ 1`); `none` when `k = 0` or when iteration `k`
did not complete.  Mirrors the threading in orchestrator.py lines
148-257. -/
def fbAux (notes : ResearchNotes) (o : Oracle) : Nat → Option ReviewFeedback
  | 0 => none
  | k + 1 =>
    match writer_agent notes (fbAux notes o k) (o.writerResp (k + 1)) with
    | .error _ => none
    | .ok d =>
      match editor_agent d (detect_clickbait d.title) (o.editorResp (k + 1)) with
      | .error _ => none
      | .ok review => some review

/-- Specification-side trace: the review produced by iteration `i ≥ 1`. -/
def reviewAt (notes : ResearchNotes) (o : Oracle) (i : Nat) :
    Option ReviewFeedback :=
  fbAux notes o i

/-- Specification-side trace: the draft produced by iteration `i ≥ 1`. -/
def draftAt (notes : ResearchNotes) (o : Oracle) (i : Nat) :
    Option ArticleDraft :=
  (writer_agent notes (fbAux notes o (i - 1)) (o.writerResp i)).toOption

/-- Specification-side trace: the partially filled `result` record at the
start of iteration `k + 1`, i.e. after `k` completed iterations. -/
def resBefore (topic : String) (notes : ResearchNotes) (o : Oracle) :
    Nat → CycleResult
  | 0 => { status := CycleStatus.ERROR, topic := topic, iterations := 0,
           research_notes := some notes }
  | k + 1 =>
    { resBefore topic notes o k with
      iterations := k + 1,
      final_draft := draftAt notes o (k + 1),
      final_review := reviewAt notes o (k + 1) }

/-- The first `k` iterations all complete (writer and editor both succeed)
and none of them decides APPROVE. -/
def ReachedWithout (notes : ResearchNotes) (o : Oracle) (k : Nat) : Prop :=
  ∀ j, 1 ≤ j → j ≤ k →
    ∃ rv, fbAux notes o j = some rv ∧ rv.decision ≠ ReviewDecision.APPROVE

/-- loopIters instrumented with a counter of writer invocations (one per
loop iteration entered, incremented exactly where the source calls
writer_agent); otherwise identical to loopIters. -/
def loopItersCount (notes : ResearchNotes) (o : Oracle) :
    List Nat → Option ReviewFeedback → CycleResult → Nat → CycleResult × Nat
  | [], _previous_feedback, result, count =>
    ({ result with status := CycleStatus.MAX_ITERATIONS }, count)
  | iteration :: rest, previous_feedback, result, count =>
    let result := { result with iterations := iteration }
    let count := count + 1
    match writer_agent notes previous_feedback (o.writerResp iteration) with
    | .error e =>
      ({ result with status := CycleStatus.ERROR, error_message := some e }, count)
    | .ok article_draft =>
      let result := { result with final_draft := some article_draft }
      let clickbait_score := detect_clickbait article_draft.title
      match editor_agent article_draft clickbait_score (o.editorResp iteration) with
      | .error e =>
        ({ result with status := CycleStatus.ERROR, error_message := some e }, count)
      | .ok review =>
        let result := { result with final_review := some review }
        match review.decision with
        | .APPROVE => ({ result with status := CycleStatus.SUCCESS }, count)
        | .REJECT =>
          if rest = [] then ({ result with status := CycleStatus.REJECTED }, count)
          else loopItersCount notes o rest (some review) result count
        | .REVISE =>
          if rest = [] then loopItersCount notes o rest previous_feedback result count
          else loopItersCount notes o rest (some review) result count

/-- orchestrate_newsroom_cycle instrumented with the writer-invocation
counter of loopItersCount. -/
def orchestrate_count (topic : String) (max_iterations : Nat) (o : Oracle) :
    CycleResult × Nat :=
  let result : CycleResult :=
    { status := CycleStatus.ERROR, topic := topic, iterations := 0 }
  match research_agent topic o.researchResp with
  | .error e => ({ result with error_message := some e }, 0)
  | .ok research_notes =>
    let result := { result with research_notes := some research_notes }
    loopItersCount research_notes o (List.range' 1 max_iterations) none result 0

/-
Concrete data used by witnesses and counterexamples: a research note, a
well-formed writer response (satisfying every Pydantic bound), and editor
responses for each decision string.
-/

def sampleResearchData : ResearchData :=
  { topic := "X", sources := [], key_facts := ["fakt"],
    suggested_angle := "przekrojowo" }

def sampleNotes : ResearchNotes :=
  { topic := "X", sources := [], key_facts := ["fakt"],
    suggested_angle := "przekrojowo" }

def sampleDraftData : DraftData :=
  { title := "Praca zdalna w IT",
    lead := "Lead artykulu o pracy zdalnej w branzy IT.",
    body := String.mk (List.replicate 120 'a'),
    tags := ["IT"], word_count := 120, version? := none }

def reviewDataOf (decision : String) : ReviewData :=
  { decision := decision, overall_score := 7, strengths := ["zwiezlosc"],
    weaknesses := ["brak cytatu"], specific_suggestions := ["dodaj cytat"],
    fact_check_notes := none }

/-- The validated feedback editor_agent builds from `reviewDataOf s`. -/
def reviewOf (decision : ReviewDecision) : ReviewFeedback :=
  { decision := decision, overall_score := 7, strengths := ["zwiezlosc"],
    weaknesses := ["brak cytatu"], specific_suggestions := ["dodaj cytat"],
    fact_check_notes := none, iteration_attr := none }

/-- Scenario A oracle: editor approves every iteration. -/
def oracleA : Oracle :=
  { researchResp := .ok sampleResearchData,
    writerResp := fun _ => .ok sampleDraftData,
    editorResp := fun _ => .ok (reviewDataOf "approve") }

/-- Scenario B oracle: revise on iteration 1, approve from iteration 2. -/
def oracleB : Oracle :=
  { researchResp := .ok sampleResearchData,
    writerResp := fun _ => .ok sampleDraftData,
    editorResp := fun i =>
      .ok (reviewDataOf (if i ≤ 1 then "revise" else "approve")) }

/-- Scenario C oracle: editor rejects every iteration. -/
def oracleC : Oracle :=
  { researchResp := .ok sampleResearchData,
    writerResp := fun _ => .ok sampleDraftData,
    editorResp := fun _ => .ok (reviewDataOf "reject") }

/-- Scenario D oracle: editor asks for revision on every iteration. -/
def oracleD : Oracle :=
  { researchResp := .ok sampleResearchData,
    writerResp := fun _ => .ok sampleDraftData,
    editorResp := fun _ => .ok (reviewDataOf "revise") }

/-- Scenario E oracle: the research response is unparsable. -/
def oracleE : Oracle :=
  { researchResp := .error "Expecting value: line 1 column 1 (char 0)",
    writerResp := fun _ => .error "unused",
    editorResp := fun _ => .error "unused" }

/-- Oracle for the C4 counterexample: revise twice, then approve, with
writer responses that carry no explicit version. -/
def oracleRRA : Oracle :=
  { researchResp := .ok sampleResearchData,
    writerResp := fun _ => .ok sampleDraftData,
    editorResp := fun i =>
      .ok (reviewDataOf (if i ≤ 2 then "revise" else "approve")) }

def draftDataV5 : DraftData := { sampleDraftData with version? := some 5 }

def fbIter3 : ReviewFeedback :=
  { reviewOf ReviewDecision.REVISE with iteration_attr := some 3 }

def sampleDraftV1 : ArticleDraft :=
  { title := "Praca zdalna w IT",
    lead := "Lead artykulu o pracy zdalnej w branzy IT.",
    body := String.mk (List.replicate 120 'a'),
    tags := ["IT"], word_count := 120, version := 1 }

def sampleDraftV4 : ArticleDraft :=
  { sampleDraftV1 with version := 4 }

def longDraft : ArticleDraft :=
  { title := "Tytul artykulu", lead := "Lead artykulu testowego systemu.",
    body := String.mk (List.replicate 501 'b'),
    tags := ["test"], word_count := 501, version := 1 }

def longResult : CycleResult :=
  { status := CycleStatus.SUCCESS, topic := "X", iterations := 1,
    final_draft := some longDraft }

/-- The result record after the writer and editor of iteration `i` have
both succeeded (draft `d`, review `rv`). -/
def afterStep (res : CycleResult) (i : Nat) (d : ArticleDraft)
    (rv : ReviewFeedback) : CycleResult :=
  { res with iterations := i, final_draft := some d, final_review := some rv }

theorem editor_agent_attr (draft : ArticleDraft) (c : ℚ)
    (resp : Except String ReviewData) (rv : ReviewFeedback)
    (h : editor_agent draft c resp = Except.ok rv) :
    rv.iteration_attr = none := by
  unfold editor_agent at h
  cases resp with
  | error e => simp at h
  | ok data =>
    simp only at h
    split at h
    · simp at h
    · simp only [Except.ok.injEq] at h
      subst h
      rfl

theorem fbAux_succ_iff (notes : ResearchNotes) (o : Oracle) (k : Nat)
    (rv : ReviewFeedback) :
    fbAux notes o (k + 1) = some rv ↔
      ∃ d, writer_agent notes (fbAux notes o k) (o.writerResp (k + 1)) = Except.ok d ∧
        editor_agent d (detect_clickbait d.title) (o.editorResp (k + 1)) = Except.ok rv := by
  conv_lhs => rw [fbAux]
  cases hw : writer_agent notes (fbAux notes o k) (o.writerResp (k + 1)) with
  | error e => simp
  | ok d =>
    cases he : editor_agent d (detect_clickbait d.title) (o.editorResp (k + 1)) with
    | error e => simp [he]
    | ok review => simp [he, eq_comm]

theorem fbAux_attr (notes : ResearchNotes) (o : Oracle) (k : Nat)
    (rv : ReviewFeedback) (h : fbAux notes o k = some rv) :
    rv.iteration_attr = none := by
  cases k with
  | zero => simp [fbAux] at h
  | succ k =>
    obtain ⟨d, _, he⟩ := (fbAux_succ_iff notes o k rv).mp h
    exact editor_agent_attr _ _ _ _ he

theorem loopIters_cons_ok (notes : ResearchNotes) (o : Oracle) (i : Nat)
    (rest : List Nat) (fb : Option ReviewFeedback) (res : CycleResult)
    (d : ArticleDraft) (rv : ReviewFeedback)
    (hw : writer_agent notes fb (o.writerResp i) = Except.ok d)
    (he : editor_agent d (detect_clickbait d.title) (o.editorResp i) = Except.ok rv) :
    loopIters notes o (i :: rest) fb res =
      match rv.decision with
      | ReviewDecision.APPROVE =>
        { afterStep res i d rv with status := CycleStatus.SUCCESS }
      | ReviewDecision.REJECT =>
        if rest = [] then { afterStep res i d rv with status := CycleStatus.REJECTED }
        else loopIters notes o rest (some rv) (afterStep res i d rv)
      | ReviewDecision.REVISE =>
        if rest = [] then loopIters notes o rest fb (afterStep res i d rv)
        else loopIters notes o rest (some rv) (afterStep res i d rv) := by
  conv_lhs => rw [loopIters]
  simp only [hw]
  simp only [he]
  rfl

theorem loopIters_cons_werr (notes : ResearchNotes) (o : Oracle) (i : Nat)
    (rest : List Nat) (fb : Option ReviewFeedback) (res : CycleResult)
    (e : String) (hw : writer_agent notes fb (o.writerResp i) = Except.error e) :
    loopIters notes o (i :: rest) fb res =
      { res with iterations := i, status := CycleStatus.ERROR,
                 error_message := some e } := by
  conv_lhs => rw [loopIters]
  simp only [hw]

theorem loopIters_cons_eerr (notes : ResearchNotes) (o : Oracle) (i : Nat)
    (rest : List Nat) (fb : Option ReviewFeedback) (res : CycleResult)
    (d : ArticleDraft) (e : String)
    (hw : writer_agent notes fb (o.writerResp i) = Except.ok d)
    (he : editor_agent d (detect_clickbait d.title) (o.editorResp i) = Except.error e) :
    loopIters notes o (i :: rest) fb res =
      { res with iterations := i, final_draft := some d,
                 status := CycleStatus.ERROR, error_message := some e } := by
  conv_lhs => rw [loopIters]
  simp only [hw]
  simp only [he]

theorem resBefore_succ (topic : String) (notes : ResearchNotes) (o : Oracle)
    (k : Nat) (d : ArticleDraft) (rv : ReviewFeedback)
    (hw : writer_agent notes (fbAux notes o k) (o.writerResp (k + 1)) = Except.ok d)
    (hfb : fbAux notes o (k + 1) = some rv) :
    resBefore topic notes o (k + 1) =
      afterStep (resBefore topic notes o k) (k + 1) d rv := by
  show ({ resBefore topic notes o k with
          iterations := k + 1,
          final_draft := draftAt notes o (k + 1),
          final_review := reviewAt notes o (k + 1) } : CycleResult) = _
  rw [afterStep]
  have hd : draftAt notes o (k + 1) = some d := by
    unfold draftAt
    simp [hw, Except.toOption]
  have hr : reviewAt notes o (k + 1) = some rv := hfb
  rw [hd, hr]

theorem loop_skip (topic : String) (notes : ResearchNotes) (o : Oracle)
    (N k : Nat) (hk : k < N) (H : ReachedWithout notes o k) :
    loopIters notes o (List.range' 1 N) none (resBefore topic notes o 0) =
      loopIters notes o (List.range' (k + 1) (N - k)) (fbAux notes o k)
        (resBefore topic notes o k) := by
  induction k with
  | zero => rfl
  | succ k ih =>
    have hk' : k < N := Nat.lt_of_succ_lt hk
    have H' : ReachedWithout notes o k :=
      fun j h1 h2 => H j h1 (Nat.le_succ_of_le h2)
    rw [ih hk' H']
    obtain ⟨rv, hfb, hdec⟩ := H (k + 1) (by omega) (Nat.le_refl _)
    obtain ⟨d, hw, he⟩ := (fbAux_succ_iff notes o k rv).mp hfb
    have hlist : List.range' (k + 1) (N - k) =
        (k + 1) :: List.range' (k + 2) (N - (k + 1)) := by
      have h2 : N - k = (N - (k + 1)) + 1 := by omega
      rw [h2, List.range'_succ]
    rw [hlist, loopIters_cons_ok notes o (k + 1) _ _ _ d rv hw he]
    have hne : List.range' (k + 2) (N - (k + 1)) ≠ [] := by
      have h3 : N - (k + 1) ≠ 0 := by omega
      simpa [List.range'_eq_nil] using h3
    rw [resBefore_succ topic notes o k d rv hw hfb]
    cases hd : rv.decision with
    | APPROVE => exact absurd hd hdec
    | REJECT => simp [hne, hfb]
    | REVISE => simp [hne, hfb]

theorem loop_iterations_ge (notes : ResearchNotes) (o : Oracle) :
    ∀ (m a : Nat) (fb : Option ReviewFeedback) (res : CycleResult),
      a ≤ (loopIters notes o (List.range' a (m + 1)) fb res).iterations := by
  intro m
  induction m with
  | zero =>
    intro a fb res
    rw [List.range'_succ]
    rw [loopIters]
    cases hw : writer_agent notes fb (o.writerResp a) with
    | error e => simp
    | ok d =>
      simp only
      cases he : editor_agent d (detect_clickbait d.title) (o.editorResp a) with
      | error e => simp
      | ok rv =>
        simp only
        cases rv.decision with
        | APPROVE => simp
        | REJECT => simp [loopIters]
        | REVISE => simp [loopIters]
  | succ m ih =>
    intro a fb res
    rw [List.range'_succ]
    rw [loopIters]
    cases hw : writer_agent notes fb (o.writerResp a) with
    | error e => simp
    | ok d =>
      simp only
      cases he : editor_agent d (detect_clickbait d.title) (o.editorResp a) with
      | error e => simp
      | ok rv =>
        simp only
        have hne : List.range' (a + 1) (m + 1) ≠ [] := by
          simp [List.range'_eq_nil]
        cases rv.decision with
        | APPROVE => simp
        | REJECT =>
          simp only [hne, if_neg]
          exact Nat.le_of_succ_le (ih (a + 1) _ _)
        | REVISE =>
          simp only [hne, if_neg]
          exact Nat.le_of_succ_le (ih (a + 1) _ _)

theorem loop_success_review (notes : ResearchNotes) (o : Oracle) :
    ∀ (l : List Nat) (fb : Option ReviewFeedback) (res : CycleResult),
      (loopIters notes o l fb res).status = CycleStatus.SUCCESS →
      ∃ rv, (loopIters notes o l fb res).final_review = some rv ∧
        rv.decision = ReviewDecision.APPROVE := by
  intro l
  induction l with
  | nil =>
    intro fb res h
    simp [loopIters] at h
  | cons i rest ih =>
    intro fb res h
    cases hw : writer_agent notes fb (o.writerResp i) with
    | error e =>
      rw [loopIters_cons_werr notes o i rest fb res e hw] at h
      simp at h
    | ok d =>
      cases he : editor_agent d (detect_clickbait d.title) (o.editorResp i) with
      | error e =>
        rw [loopIters_cons_eerr notes o i rest fb res d e hw he] at h
        simp at h
      | ok rv =>
        rw [loopIters_cons_ok notes o i rest fb res d rv hw he] at h ⊢
        cases hd : rv.decision with
        | APPROVE =>
          simp only [hd] at h ⊢
          exact ⟨rv, rfl, hd⟩
        | REJECT =>
          simp only [hd] at h ⊢
          by_cases hr : rest = []
          · rw [if_pos hr] at h; simp [afterStep] at h
          · rw [if_neg hr] at h ⊢
            exact ih _ _ h
        | REVISE =>
          simp only [hd] at h ⊢
          by_cases hr : rest = []
          · rw [if_pos hr] at h ⊢
            subst hr
            simp [loopIters] at h
          · rw [if_neg hr] at h ⊢
            exact ih _ _ h

theorem loopItersCount_fst (notes : ResearchNotes) (o : Oracle) :
    ∀ (l : List Nat) (fb : Option ReviewFeedback) (res : CycleResult) (c : Nat),
      (loopItersCount notes o l fb res c).1 = loopIters notes o l fb res := by
  intro l
  induction l with
  | nil => intro fb res c; rfl
  | cons i rest ih =>
    intro fb res c
    rw [loopItersCount, loopIters]
    cases hw : writer_agent notes fb (o.writerResp i) with
    | error e => rfl
    | ok d =>
      simp only
      cases he : editor_agent d (detect_clickbait d.title) (o.editorResp i) with
      | error e => rfl
      | ok rv =>
        simp only
        cases rv.decision with
        | APPROVE => rfl
        | REJECT =>
          by_cases hr : rest = []
          · subst hr; rfl
          · simp only [if_neg hr]
            exact ih _ _ _
        | REVISE =>
          by_cases hr : rest = []
          · subst hr
            exact ih fb
              { res with iterations := i, final_draft := some d, final_review := some rv }
              (c + 1)
          · simp only [if_neg hr]
            exact ih _ _ _

theorem loopItersCount_iterations (notes : ResearchNotes) (o : Oracle) :
    ∀ (m a : Nat) (fb : Option ReviewFeedback) (res : CycleResult) (c : Nat),
      res.iterations + 1 = a →
      (loopItersCount notes o (List.range' a m) fb res c).1.iterations + c =
        res.iterations + (loopItersCount notes o (List.range' a m) fb res c).2 := by
  intro m
  induction m with
  | zero => intro a fb res c _; rfl
  | succ m ih =>
    intro a fb res c ha
    rw [List.range'_succ]
    rw [loopItersCount]
    cases hw : writer_agent notes fb (o.writerResp a) with
    | error e => simp; omega
    | ok d =>
      simp only
      cases he : editor_agent d (detect_clickbait d.title) (o.editorResp a) with
      | error e => simp; omega
      | ok rv =>
        simp only
        cases rv.decision with
        | APPROVE => simp; omega
        | REJECT =>
          by_cases hr : List.range' (a + 1) m = []
          · simp only [if_pos hr]
            omega
          · simp only [if_neg hr]
            have := ih (a + 1) (some rv)
              { res with iterations := a, final_draft := some d, final_review := some rv }
              (c + 1) (by simp)
            dsimp only at this ⊢
            omega
        | REVISE =>
          by_cases hr : List.range' (a + 1) m = []
          · simp only [if_pos hr]
            have := ih (a + 1) fb
              { res with iterations := a, final_draft := some d, final_review := some rv }
              (c + 1) (by simp)
            dsimp only at this ⊢
            omega
          · simp only [if_neg hr]
            have := ih (a + 1) (some rv)
              { res with iterations := a, final_draft := some d, final_review := some rv }
              (c + 1) (by simp)
            dsimp only at this ⊢
            omega

theorem loopItersCount_le (notes : ResearchNotes) (o : Oracle) :
    ∀ (l : List Nat) (fb : Option ReviewFeedback) (res : CycleResult) (c : Nat),
      (loopItersCount notes o l fb res c).2 ≤ c + l.length := by
  intro l
  induction l with
  | nil => intro fb res c; simp [loopItersCount]
  | cons i rest ih =>
    intro fb res c
    rw [loopItersCount]
    cases hw : writer_agent notes fb (o.writerResp i) with
    | error e => simp
    | ok d =>
      simp only
      cases he : editor_agent d (detect_clickbait d.title) (o.editorResp i) with
      | error e => simp
      | ok rv =>
        simp only
        cases rv.decision with
        | APPROVE => simp
        | REJECT =>
          by_cases hr : rest = []
          · rw [if_pos hr]; simp
          · rw [if_neg hr]
            have := ih (some rv)
              { res with iterations := i, final_draft := some d, final_review := some rv } (c + 1)
            simp only [List.length_cons]
            omega
        | REVISE =>
          by_cases hr : rest = []
          · subst hr
            simpa using ih fb
              { res with iterations := i, final_draft := some d, final_review := some rv } (c + 1)
          · simp only [if_neg hr]
            have := ih (some rv)
              { res with iterations := i, final_draft := some d, final_review := some rv } (c + 1)
            simp only [List.length_cons]
            omega

theorem orchestrate_ok (topic : String) (o : Oracle) (N : Nat)
    (notes : ResearchNotes)
    (hres : research_agent topic o.researchResp = Except.ok notes) :
    orchestrate_newsroom_cycle topic N o =
      loopIters notes o (List.range' 1 N) none (resBefore topic notes o 0) := by
  unfold orchestrate_newsroom_cycle
  rw [hres]
  rfl

theorem orchestrate_err (topic : String) (o : Oracle) (N : Nat) (e : String)
    (hres : research_agent topic o.researchResp = Except.error e) :
    orchestrate_newsroom_cycle topic N o =
      { status := CycleStatus.ERROR, topic := topic, iterations := 0,
        error_message := some e } := by
  unfold orchestrate_newsroom_cycle
  rw [hres]

theorem resBefore_research (topic : String) (notes : ResearchNotes)
    (o : Oracle) (k : Nat) :
    (resBefore topic notes o k).research_notes = some notes := by
  induction k with
  | zero => rfl
  | succ k ih => simpa [resBefore] using ih

theorem orchestrate_skip_cons (topic : String) (o : Oracle) (N k : Nat)
    (notes : ResearchNotes)
    (hres : research_agent topic o.researchResp = Except.ok notes)
    (hkN : k + 1 ≤ N) (H : ReachedWithout notes o k) :
    orchestrate_newsroom_cycle topic N o =
      loopIters notes o ((k + 1) :: List.range' (k + 2) (N - (k + 1)))
        (fbAux notes o k) (resBefore topic notes o k) := by
  rw [orchestrate_ok topic o N notes hres,
    loop_skip topic notes o N k (by omega) H]
  congr 1
  have h2 : N - k = (N - (k + 1)) + 1 := by omega
  rw [h2, List.range'_succ]

theorem writer_agent_version (notes : ResearchNotes)
    (fb : Option ReviewFeedback) (data : DraftData) (d : ArticleDraft)
    (h : writer_agent notes fb (Except.ok data) = Except.ok d) :
    d.version =
      fb.elim (data.version?.getD 1) (fun f => f.iteration_attr.getD 1 + 1) := by
  unfold writer_agent at h
  simp only at h
  split_ifs at h
  simp only [Except.ok.injEq] at h
  subst h
  cases fb <;> rfl

theorem orchestrate_approve_step (topic : String) (o : Oracle) (N k : Nat)
    (notes : ResearchNotes) (rv : ReviewFeedback)
    (hres : research_agent topic o.researchResp = Except.ok notes)
    (hkN : k + 1 ≤ N) (H : ReachedWithout notes o k)
    (hrv : fbAux notes o (k + 1) = some rv)
    (hdec : rv.decision = ReviewDecision.APPROVE) :
    ∃ d, writer_agent notes (fbAux notes o k) (o.writerResp (k + 1)) = Except.ok d ∧
      orchestrate_newsroom_cycle topic N o =
        { afterStep (resBefore topic notes o k) (k + 1) d rv with
          status := CycleStatus.SUCCESS } := by
  obtain ⟨d, hw, he⟩ := (fbAux_succ_iff notes o k rv).mp hrv
  refine ⟨d, hw, ?_⟩
  rw [orchestrate_skip_cons topic o N k notes hres hkN H,
    loopIters_cons_ok notes o (k + 1) _ _ _ d rv hw he]
  simp only [hdec]

/-- C1: whenever the first `k` iterations complete without an APPROVE and
iteration `k + 1 ≤ max_iterations` produces a review with decision
APPROVE, the cycle stops there with status SUCCESS, `iterations = k + 1`,
and that iteration's draft and review as `final_draft`/`final_review`
(so an APPROVE may fire on any iteration, including the first); and
conversely a SUCCESS status is only ever produced together with a
recorded APPROVE review. -/
theorem C1_approve_exit :
    (∀ (topic : String) (o : Oracle) (N k : Nat) (notes : ResearchNotes)
        (rv : ReviewFeedback),
      research_agent topic o.researchResp = Except.ok notes →
      k + 1 ≤ N →
      ReachedWithout notes o k →
      reviewAt notes o (k + 1) = some rv →
      rv.decision = ReviewDecision.APPROVE →
      (orchestrate_newsroom_cycle topic N o).status = CycleStatus.SUCCESS ∧
      (orchestrate_newsroom_cycle topic N o).iterations = k + 1 ∧
      (orchestrate_newsroom_cycle topic N o).final_draft = draftAt notes o (k + 1) ∧
      (orchestrate_newsroom_cycle topic N o).final_review = some rv) ∧
    (∀ (topic : String) (o : Oracle) (N : Nat),
      (orchestrate_newsroom_cycle topic N o).status = CycleStatus.SUCCESS →
      ∃ rv, (orchestrate_newsroom_cycle topic N o).final_review = some rv ∧
        rv.decision = ReviewDecision.APPROVE) := by
  constructor
  · intro topic o N k notes rv hres hkN H hrv hdec
    obtain ⟨d, hw, horch⟩ :=
      orchestrate_approve_step topic o N k notes rv hres hkN H hrv hdec
    rw [horch]
    refine ⟨rfl, rfl, ?_, rfl⟩
    show some d = draftAt notes o (k + 1)
    unfold draftAt
    simp [hw, Except.toOption]
  · intro topic o N h
    cases hres : research_agent topic o.researchResp with
    | error e =>
      rw [orchestrate_err topic o N e hres] at h
      simp at h
    | ok notes =>
      rw [orchestrate_ok topic o N notes hres] at h ⊢
      exact loop_success_review notes o _ _ _ h

set_option maxRecDepth 10000 in
/-- C1 witness: scenario A (approve on the first of one iteration). -/
theorem C1_witness :
    (orchestrate_newsroom_cycle "X" 1 oracleA).status = CycleStatus.SUCCESS ∧
    (orchestrate_newsroom_cycle "X" 1 oracleA).iterations = 1 ∧
    (orchestrate_newsroom_cycle "X" 1 oracleA).final_draft = draftAt sampleNotes oracleA 1 ∧
    (orchestrate_newsroom_cycle "X" 1 oracleA).final_review =
      some (reviewOf ReviewDecision.APPROVE) :=
  C1_approve_exit.1 "X" oracleA 1 0 sampleNotes (reviewOf ReviewDecision.APPROVE)
    rfl (by omega) (fun j h1 h2 => absurd (Nat.le_trans h1 h2) (by omega))
    (by decide) rfl

/-- C2: whenever the first `k` iterations complete without an APPROVE and
iteration `k + 1` produces a REJECT review, then: if iterations remain
(`k + 1 < max_iterations`) the cycle does not terminate — it continues the
loop from iteration `k + 2` with that review installed as the feedback for
the next writer invocation, and the final iteration count is at least
`k + 2`; if instead `k + 1 = max_iterations`, the cycle stops with status
REJECTED and `iterations = max_iterations`. -/
theorem C2_reject_policy (topic : String) (o : Oracle) (N k : Nat)
    (notes : ResearchNotes) (rv : ReviewFeedback)
    (hres : research_agent topic o.researchResp = Except.ok notes)
    (hkN : k + 1 ≤ N)
    (H : ReachedWithout notes o k)
    (hrv : reviewAt notes o (k + 1) = some rv)
    (hdec : rv.decision = ReviewDecision.REJECT) :
    (k + 1 < N →
      orchestrate_newsroom_cycle topic N o =
        loopIters notes o (List.range' (k + 2) (N - (k + 1))) (some rv)
          (resBefore topic notes o (k + 1)) ∧
      k + 2 ≤ (orchestrate_newsroom_cycle topic N o).iterations) ∧
    (k + 1 = N →
      (orchestrate_newsroom_cycle topic N o).status = CycleStatus.REJECTED ∧
      (orchestrate_newsroom_cycle topic N o).iterations = N) := by
  obtain ⟨d, hw, he⟩ := (fbAux_succ_iff notes o k rv).mp hrv
  have hstep := orchestrate_skip_cons topic o N k notes hres hkN H
  rw [hstep, loopIters_cons_ok notes o (k + 1) _ _ _ d rv hw he]
  simp only [hdec]
  have hres1 := resBefore_succ topic notes o k d rv hw hrv
  constructor
  · intro hlt
    have hne : List.range' (k + 2) (N - (k + 1)) ≠ [] := by
      have h3 : N - (k + 1) ≠ 0 := by omega
      simpa [List.range'_eq_nil] using h3
    rw [if_neg hne]
    refine ⟨by rw [hres1], ?_⟩
    have hm : N - (k + 1) = (N - (k + 2)) + 1 := by omega
    rw [hm]
    exact loop_iterations_ge notes o (N - (k + 2)) (k + 2) _ _
  · intro heq
    have hnil : List.range' (k + 2) (N - (k + 1)) = [] := by
      have h3 : N - (k + 1) = 0 := by omega
      simp [h3]
    rw [if_pos hnil]
    exact ⟨rfl, by simp [afterStep]; omega⟩

set_option maxRecDepth 10000 in
/-- C2 witness: scenario C (reject on both of two iterations ends in
status REJECTED with iterations 2). -/
theorem C2_witness :
    (orchestrate_newsroom_cycle "X" 2 oracleC).status = CycleStatus.REJECTED ∧
    (orchestrate_newsroom_cycle "X" 2 oracleC).iterations = 2 :=
  (C2_reject_policy "X" oracleC 2 1 sampleNotes (reviewOf ReviewDecision.REJECT)
    rfl (by omega)
    (fun j h1 h2 => by
      have hj : j = 1 := by omega
      subst hj
      exact ⟨reviewOf ReviewDecision.REJECT, by decide, by decide⟩)
    (by decide) rfl).2 rfl

/-- C3: when all `max_iterations = k + 1` iterations complete without an
APPROVE and the last iteration's decision is REVISE, the cycle ends with
status MAX_ITERATIONS, `iterations = max_iterations`, and the last
iteration's draft and review kept as `final_draft`/`final_review`. -/
theorem C3_exhausted (topic : String) (o : Oracle) (N k : Nat)
    (notes : ResearchNotes) (rv : ReviewFeedback)
    (hres : research_agent topic o.researchResp = Except.ok notes)
    (hN : N = k + 1)
    (H : ReachedWithout notes o k)
    (hrv : reviewAt notes o N = some rv)
    (hdec : rv.decision = ReviewDecision.REVISE) :
    (orchestrate_newsroom_cycle topic N o).status = CycleStatus.MAX_ITERATIONS ∧
    (orchestrate_newsroom_cycle topic N o).iterations = N ∧
    (orchestrate_newsroom_cycle topic N o).final_draft = draftAt notes o N ∧
    (orchestrate_newsroom_cycle topic N o).final_review = some rv := by
  subst hN
  obtain ⟨d, hw, he⟩ := (fbAux_succ_iff notes o k rv).mp hrv
  have hstep := orchestrate_skip_cons topic o (k + 1) k notes hres (by omega) H
  rw [hstep, loopIters_cons_ok notes o (k + 1) _ _ _ d rv hw he]
  simp only [hdec]
  have hnil : List.range' (k + 2) ((k + 1) - (k + 1)) = [] := by
    simp
  rw [if_pos hnil, hnil]
  rw [loopIters]
  refine ⟨rfl, rfl, ?_, rfl⟩
  show some d = draftAt notes o (k + 1)
  unfold draftAt
  simp [hw, Except.toOption]

set_option maxRecDepth 10000 in
/-- C3 witness: scenario D (revise on both of two iterations ends in
status MAX_ITERATIONS with iterations 2, keeping the last draft). -/
theorem C3_witness :
    (orchestrate_newsroom_cycle "X" 2 oracleD).status = CycleStatus.MAX_ITERATIONS ∧
    (orchestrate_newsroom_cycle "X" 2 oracleD).iterations = 2 ∧
    (orchestrate_newsroom_cycle "X" 2 oracleD).final_draft = draftAt sampleNotes oracleD 2 ∧
    (orchestrate_newsroom_cycle "X" 2 oracleD).final_review =
      some (reviewOf ReviewDecision.REVISE) :=
  C3_exhausted "X" oracleD 2 1 sampleNotes (reviewOf ReviewDecision.REVISE)
    rfl rfl
    (fun j h1 h2 => by
      have hj : j = 1 := by omega
      subst hj
      exact ⟨reviewOf ReviewDecision.REVISE, by decide, by decide⟩)
    (by decide) rfl

set_option maxRecDepth 10000 in
/-- C4 counterexample: with max_iterations = 3 and editor decisions
REVISE, REVISE, APPROVE (and writer outputs carrying no explicit version),
the cycle succeeds after 3 writer invocations (iterations = 3) but the
final draft's version is 2, not 3 — because writer_agent computes the new
version as `getattr(feedback, "_iteration", 1) + 1` and no code ever sets
`_iteration` on a feedback object, so every revision gets version 2. -/
theorem C4_counterexample :
    (orchestrate_newsroom_cycle "X" 3 oracleRRA).status = CycleStatus.SUCCESS ∧
    (orchestrate_newsroom_cycle "X" 3 oracleRRA).iterations = 3 ∧
    (orchestrate_newsroom_cycle "X" 3 oracleRRA).final_draft.map ArticleDraft.version
      = some 2 ∧
    (orchestrate_newsroom_cycle "X" 3 oracleRRA).final_draft.map ArticleDraft.version
      ≠ some (orchestrate_newsroom_cycle "X" 3 oracleRRA).iterations := by
  refine ⟨by decide, by decide, by decide, by decide⟩

/-- C4 amended: for a cycle that ends in APPROVE on iteration `k + 1`
with writer outputs carrying no explicit version field, the final draft's
version equals `min (k + 1) 2` — 1 on the first writer invocation and 2 on
every revision — so it equals the number of writer invocations exactly
when at most two were performed (as in scenario B), and stays at 2 beyond
that. -/
theorem C4_amended (topic : String) (o : Oracle) (N k : Nat)
    (notes : ResearchNotes) (rv : ReviewFeedback)
    (hres : research_agent topic o.researchResp = Except.ok notes)
    (hkN : k + 1 ≤ N)
    (H : ReachedWithout notes o k)
    (hrv : reviewAt notes o (k + 1) = some rv)
    (hdec : rv.decision = ReviewDecision.APPROVE)
    (hver : ∀ i data, o.writerResp i = Except.ok data → data.version? = none) :
    (orchestrate_newsroom_cycle topic N o).status = CycleStatus.SUCCESS ∧
    (orchestrate_newsroom_cycle topic N o).iterations = k + 1 ∧
    ∃ d, (orchestrate_newsroom_cycle topic N o).final_draft = some d ∧
      d.version = min (k + 1) 2 := by
  obtain ⟨d, hw, horch⟩ :=
    orchestrate_approve_step topic o N k notes rv hres hkN H hrv hdec
  rw [horch]
  refine ⟨rfl, rfl, d, rfl, ?_⟩
  obtain ⟨data, hdata⟩ : ∃ data, o.writerResp (k + 1) = Except.ok data := by
    cases hd : o.writerResp (k + 1) with
    | error e => rw [hd] at hw; simp [writer_agent] at hw
    | ok data => exact ⟨data, rfl⟩
  rw [hdata] at hw
  have hv := writer_agent_version notes (fbAux notes o k) data d hw
  cases k with
  | zero =>
    simp only [fbAux, Option.elim] at hv
    rw [hver (0 + 1) data hdata] at hv
    simpa using hv
  | succ k =>
    obtain ⟨rvp, hrvp, _⟩ := H (k + 1) (by omega) (Nat.le_refl _)
    rw [hrvp] at hv
    have hattr := fbAux_attr notes o (k + 1) rvp hrvp
    rw [Option.elim] at hv
    rw [hattr] at hv
    simp at hv
    omega

set_option maxRecDepth 10000 in
/-- C4 witness: scenario B (revise then approve with max_iterations = 2
gives SUCCESS, iterations 2, final draft version 2 = min 2 2). -/
theorem C4_witness :
    (orchestrate_newsroom_cycle "X" 2 oracleB).status = CycleStatus.SUCCESS ∧
    (orchestrate_newsroom_cycle "X" 2 oracleB).iterations = 2 ∧
    ∃ d, (orchestrate_newsroom_cycle "X" 2 oracleB).final_draft = some d ∧
      d.version = min 2 2 :=
  C4_amended "X" oracleB 2 1 sampleNotes (reviewOf ReviewDecision.APPROVE)
    rfl (by omega)
    (fun j h1 h2 => by
      have hj : j = 1 := by omega
      subst hj
      exact ⟨reviewOf ReviewDecision.REVISE, by decide, by decide⟩)
    (by decide) rfl
    (fun i data hd => by
      simp only [oracleB, Except.ok.injEq] at hd
      rw [← hd]
      rfl)


set_option maxRecDepth 10000 in
/-- C5 counterexample: invoking the write step with feedback = none on a
parsed output that carries an explicit "version": 5 yields a draft with
version 5, not 1 — the Pydantic default 1 applies only when the parsed
output has no version key. -/
theorem C5_counterexample :
    (writer_agent sampleNotes none (Except.ok draftDataV5)).toOption.map
        ArticleDraft.version = some 5 ∧
    (writer_agent sampleNotes none (Except.ok draftDataV5)).toOption.map
        ArticleDraft.version ≠ some 1 := by
  refine ⟨by decide, by decide⟩

/-- C5 amended: with feedback = none the draft's version is the parsed
output's version when present and 1 otherwise; with a feedback whose
`_iteration` attribute is `k`, the version is `k + 1` regardless of the
parsed output. -/
theorem C5_amended (notes : ResearchNotes) (data : DraftData)
    (fb : ReviewFeedback) (k : Nat) :
    (∀ d, writer_agent notes none (Except.ok data) = Except.ok d →
      d.version = data.version?.getD 1) ∧
    (fb.iteration_attr = some k →
      ∀ d, writer_agent notes (some fb) (Except.ok data) = Except.ok d →
        d.version = k + 1) := by
  constructor
  · intro d h
    simpa using writer_agent_version notes none data d h
  · intro hk d h
    have := writer_agent_version notes (some fb) data d h
    simpa [hk] using this


set_option maxRecDepth 10000 in
/-- C5 witness: a concrete write with no feedback yields version 1 (no
version key in the output), and one with a feedback whose `_iteration`
attribute is 3 yields version 4. -/
theorem C5_witness :
    sampleDraftV1.version = Option.getD sampleDraftData.version? 1 ∧
    sampleDraftV4.version = 3 + 1 :=
  ⟨(C5_amended sampleNotes sampleDraftData fbIter3 3).1 sampleDraftV1 rfl,
   (C5_amended sampleNotes sampleDraftData fbIter3 3).2 rfl sampleDraftV4 rfl⟩

/-- C6: the editor's decision mapping is a total function into
{APPROVE, REVISE, REJECT}: a string lower-casing to "approve" maps to
APPROVE, to "reject" maps to REJECT, to "revise" maps to REVISE, and every
other string maps to REVISE — so no unrecognized decision string ever
maps to APPROVE. -/
theorem C6_decision_map_total (s : String) :
    (decision_map_get s = ReviewDecision.APPROVE ↔ pyLower s = "approve") ∧
    (decision_map_get s = ReviewDecision.REJECT ↔ pyLower s = "reject") ∧
    (pyLower s = "revise" → decision_map_get s = ReviewDecision.REVISE) ∧
    (pyLower s ≠ "approve" → pyLower s ≠ "reject" →
      decision_map_get s = ReviewDecision.REVISE) := by
  simp only [decision_map_get]
  split_ifs with h1 h2 h3 <;> simp_all

set_option maxRecDepth 10000 in
/-- C6 witness: concrete strings through the mapping — a case variant of
approve, a case variant of reject, and an unrecognized variant that
falls back to REVISE. -/
theorem C6_witness :
    decision_map_get "APPROVE" = ReviewDecision.APPROVE ∧
    decision_map_get "Reject" = ReviewDecision.REJECT ∧
    decision_map_get "approved" = ReviewDecision.REVISE :=
  ⟨(C6_decision_map_total "APPROVE").1.mpr (by decide),
   (C6_decision_map_total "Reject").2.1.mpr (by decide),
   (C6_decision_map_total "approved").2.2.2 (by decide) (by decide)⟩

/-- C7: a failure in any step aborts the cycle with status ERROR and the
failure's message, preserving the partial progress recorded so far: a
research failure gives iterations 0 and no research notes (scenario E); a
writer failure at iteration k+1 keeps the research notes and the previous
iteration's draft/review; an editor failure additionally keeps the draft
just produced. -/
theorem C7_error_abort :
    (∀ (topic : String) (o : Oracle) (N : Nat) (e : String),
      research_agent topic o.researchResp = Except.error e →
      orchestrate_newsroom_cycle topic N o =
        { status := CycleStatus.ERROR, topic := topic, iterations := 0,
          final_draft := none, final_review := none, research_notes := none,
          error_message := some e }) ∧
    (∀ (topic : String) (o : Oracle) (N k : Nat) (notes : ResearchNotes) (e : String),
      research_agent topic o.researchResp = Except.ok notes →
      k + 1 ≤ N → ReachedWithout notes o k →
      writer_agent notes (fbAux notes o k) (o.writerResp (k + 1)) = Except.error e →
      orchestrate_newsroom_cycle topic N o =
        { resBefore topic notes o k with
          iterations := k + 1,
          status := CycleStatus.ERROR, error_message := some e } ∧
      (orchestrate_newsroom_cycle topic N o).research_notes = some notes) ∧
    (∀ (topic : String) (o : Oracle) (N k : Nat) (notes : ResearchNotes)
        (d : ArticleDraft) (e : String),
      research_agent topic o.researchResp = Except.ok notes →
      k + 1 ≤ N → ReachedWithout notes o k →
      writer_agent notes (fbAux notes o k) (o.writerResp (k + 1)) = Except.ok d →
      editor_agent d (detect_clickbait d.title) (o.editorResp (k + 1)) = Except.error e →
      orchestrate_newsroom_cycle topic N o =
        { resBefore topic notes o k with
          iterations := k + 1,
          final_draft := some d,
          status := CycleStatus.ERROR, error_message := some e } ∧
      (orchestrate_newsroom_cycle topic N o).research_notes = some notes) := by
  refine ⟨?_, ?_, ?_⟩
  · intro topic o N e hres
    exact orchestrate_err topic o N e hres
  · intro topic o N k notes e hres hkN H hw
    have horch : orchestrate_newsroom_cycle topic N o =
        { resBefore topic notes o k with
          iterations := k + 1,
          status := CycleStatus.ERROR, error_message := some e } := by
      rw [orchestrate_skip_cons topic o N k notes hres hkN H,
        loopIters_cons_werr notes o (k + 1) _ _ _ e hw]
    refine ⟨horch, ?_⟩
    rw [horch]
    show (resBefore topic notes o k).research_notes = some notes
    exact resBefore_research topic notes o k
  · intro topic o N k notes d e hres hkN H hw he
    have horch : orchestrate_newsroom_cycle topic N o =
        { resBefore topic notes o k with
          iterations := k + 1,
          final_draft := some d,
          status := CycleStatus.ERROR, error_message := some e } := by
      rw [orchestrate_skip_cons topic o N k notes hres hkN H,
        loopIters_cons_eerr notes o (k + 1) _ _ _ d e hw he]
    refine ⟨horch, ?_⟩
    rw [horch]
    show (resBefore topic notes o k).research_notes = some notes
    exact resBefore_research topic notes o k

/-- C7 witness: scenario E — the generation backend returns unparsable
text during research; the cycle ends FAILED (status ERROR) with no
research notes and a non-empty error message. -/
theorem C7_witness :
    orchestrate_newsroom_cycle "X" 2 oracleE =
      { status := CycleStatus.ERROR, topic := "X", iterations := 0,
        final_draft := none, final_review := none, research_notes := none,
        error_message := some "Expecting value: line 1 column 1 (char 0)" } ∧
    "Expecting value: line 1 column 1 (char 0)" ≠ "" :=
  ⟨C7_error_abort.1 "X" oracleE 2 "Expecting value: line 1 column 1 (char 0)" rfl,
   by decide⟩

/-- C8: the orchestrator always terminates (it is a total function); for
`max_iterations = N` it performs at most N writer invocations, and the
reported iteration count equals the number of writer invocations actually
performed (orchestrate_count instruments the loop with that counter and
agrees with the uninstrumented orchestrator). -/
theorem C8_iteration_bound (topic : String) (N : Nat) (o : Oracle) :
    (orchestrate_count topic N o).1 = orchestrate_newsroom_cycle topic N o ∧
    (orchestrate_newsroom_cycle topic N o).iterations = (orchestrate_count topic N o).2 ∧
    (orchestrate_count topic N o).2 ≤ N := by
  cases hres : research_agent topic o.researchResp with
  | error e =>
    have h1 : orchestrate_count topic N o =
        ({ status := CycleStatus.ERROR, topic := topic, iterations := 0,
           error_message := some e }, 0) := by
      unfold orchestrate_count
      rw [hres]
    rw [h1, orchestrate_err topic o N e hres]
    simp
  | ok notes =>
    have h1 : orchestrate_count topic N o =
        loopItersCount notes o (List.range' 1 N) none (resBefore topic notes o 0) 0 := by
      unfold orchestrate_count
      rw [hres]
      rfl
    rw [h1, orchestrate_ok topic o N notes hres]
    refine ⟨loopItersCount_fst notes o _ _ _ _, ?_, ?_⟩
    · have h3 := loopItersCount_iterations notes o N 1 none (resBefore topic notes o 0) 0 rfl
      rw [loopItersCount_fst] at h3
      have h5 : (resBefore topic notes o 0).iterations = 0 := rfl
      omega
    · have h4 := loopItersCount_le notes o (List.range' 1 N) none (resBefore topic notes o 0) 0
      simpa using h4

/-- C9: for every title, the clickbait score is in the closed range
[0, 1]: the weighted sum of trigger-phrase, punctuation and
capitalization contributions is never negative, and the result is capped
at 1 no matter how many trigger markers occur. -/
theorem C9_clickbait_range (title : String) :
    0 ≤ detect_clickbait title ∧ detect_clickbait title ≤ 1 := by
  unfold detect_clickbait
  refine ⟨le_min ?_ (by norm_num), min_le_right _ _⟩
  split_ifs with h <;> positivity

/-- C10: the to_dict article projection returns the draft's body unchanged
when it has at most 500 characters, and exactly the first 500 characters
followed by "..." when longer; title, lead, tags and word_count pass
through unchanged. -/
theorem C10_to_dict_body (r : CycleResult) (d : ArticleDraft)
    (h : r.final_draft = some d) :
    ∃ a, r.to_dict_article = some a ∧
      a.title = d.title ∧ a.lead = d.lead ∧ a.tags = d.tags ∧
      a.word_count = d.word_count ∧
      (d.body.length ≤ 500 → a.body = d.body) ∧
      (500 < d.body.length → a.body = d.body.take 500 ++ "...") := by
  unfold CycleResult.to_dict_article
  rw [h]
  refine ⟨_, rfl, rfl, rfl, rfl, rfl, ?_, ?_⟩
  · intro hle
    have hx : ¬ 500 < d.body.length := by omega
    simp [hx]
  · intro hgt
    simp [hgt]


/-- C10 witness: a concrete result whose 501-character body is truncated
to its first 500 characters plus "...". -/
theorem C10_witness :
    ∃ a, longResult.to_dict_article = some a ∧
      a.title = longDraft.title ∧ a.lead = longDraft.lead ∧
      a.tags = longDraft.tags ∧ a.word_count = longDraft.word_count ∧
      (longDraft.body.length ≤ 500 → a.body = longDraft.body) ∧
      (500 < longDraft.body.length →
        a.body = longDraft.body.take 500 ++ "...") :=
  C10_to_dict_body longResult longDraft rfl
